import Mathlib

/-!
Shallow embedding of the guideline-scraper repository
(src/scrapers.py: BaseScraper, RichtlijnenDatabaseScraper, KennisinstituutVVNScraper;
src/main.py: run_richtlijnendatabase).

The browser automation driver and the filesystem are external collaborators.
They are modelled by explicit environments (`RDPage`, `VVNPage`, `RDSite`,
`VVNSite`, `RunEnv`) that record how each collaborator call would respond,
and every flow returns, next to its result, the list of effectful calls it
performed (`Ev` / `RunEvent`) plus the updated set of files on disk.
-/

namespace GuidelineScraper

/-- Effectful collaborator calls made by a scrape flow, in order. -/
inductive Ev where
  | nav (url : String)
  | clickCookie
  | waitNetworkIdle
  | waitForLastLink
  | click (label : String)
  | startDownloadListener (timeoutMs : Nat)
  | saveFile (path : String)
  | sleep
  | log (msg : String)
deriving DecidableEq

/-- Outcome of the per-item flow for one URL. `error` is a raised exception. -/
inductive ItemResult where
  | saved
  | skippedExists
  | skippedNoButton
  | skippedNotPdf
  | error (msg : String)
deriving DecidableEq

/-! ### Python string primitives

The flows use the CPython functions `str.split`, `str.startswith`, `str.endswith` and the
code-point lexicographic string order of `sorted`. They are modelled here by
structural recursion over the character list of the string. -/

/-- Code-point lexicographic `<=` on character lists: Python string comparison. -/
def lexLe : List Char → List Char → Bool
  | [], _ => true
  | _ :: _, [] => false
  | a :: as, b :: bs =>
    if a < b then true
    else if b < a then false
    else lexLe as bs

/-- Python string `<=` (code-point lexicographic), the order used by `sorted`. -/
def pyLe (a b : String) : Bool :=
  lexLe a.data b.data

/-- Whether the first character list is an initial segment of the second. -/
def leadsB : List Char → List Char → Bool
  | [], _ => true
  | _ :: _, [] => false
  | a :: as, b :: bs => if a = b then leadsB as bs else false

/-- Python `s.startswith(pre)`; also the semantics of the CSS attribute
selector `a[href^=pre]` used by both scrapers. -/
def pyStartsWith (s pre : String) : Bool :=
  leadsB pre.data s.data

/-- Python `s.endswith(suf)` (src/scrapers.py line 263). -/
def pyEndsWith (s suf : String) : Bool :=
  leadsB suf.data.reverse s.data.reverse

/-- Python `s.split(sep)` for a one-character separator, over character lists:
splitting the empty string gives `[""]`, and separators at either end produce
empty segments, exactly as in CPython. -/
def splitChars (sep : Char) : List Char → List (List Char)
  | [] => [[]]
  | c :: cs =>
    match splitChars sep cs with
    | h :: t => if c = sep then [] :: h :: t else (c :: h) :: t
    | [] => [[c]]

/-- Python `url.split("/")`. -/
def pySplitSlash (s : String) : List String :=
  (splitChars '/' s.data).map (fun cs => String.mk cs)

/-- Python `url.split("/")[-1]` (src/scrapers.py line 140, src/main.py line 67). -/
def lastSeg (url : String) : String :=
  (pySplitSlash url).getLastD ""

/-- Python `url.split("/")[-2]` (src/scrapers.py line 239). VVN item URLs end in
a slash, so this picks the last nonempty path segment; Python raises on lists
shorter than 2, which cannot happen for an absolute URL, so we default to "". -/
def secondLastSeg (url : String) : String :=
  let parts := pySplitSlash url
  parts.getD (parts.length - 2) ""

/-- Download target `save_path = self.download_dir / (name + ".pdf")` with
`name = url.split("/")[-1]` (src/scrapers.py lines 140-141). Paths are
modelled as strings joined by "/". -/
def rdTarget (dir url : String) : String :=
  dir ++ "/" ++ lastSeg url ++ ".pdf"

/-- Download target `save_path = self.download_dir / (name + ".pdf")` with
`name = url.split("/")[-2]` (src/scrapers.py lines 239-240). -/
def vvnTarget (dir url : String) : String :=
  dir ++ "/" ++ secondLastSeg url ++ ".pdf"

/-- Browser collaborator behavior: the DOM `element.href` property read by
`evaluate_all` (src/scrapers.py lines 128-130) resolves a root-relative href
against the page origin and leaves absolute hrefs as they are. -/
def resolveHref (origin href : String) : String :=
  if pyStartsWith href "/" then origin ++ href else href

/-- Link discovery shared by both scrapers (src/scrapers.py lines 119-133 and
221-232; src/main.py lines 49-57): the locator `a[href^=...]` keeps the anchors
whose raw href starts with the site prefix, `evaluate_all` maps them to absolute
`element.href` values, and `sorted(list(set(all_hrefs)))` deduplicates and sorts. -/
def discoverLinks (origin pre : String) (rawHrefs : List String) : List String :=
  List.insertionSort (fun a b => pyLe a b = true)
    (((rawHrefs.filter (fun h => pyStartsWith h pre)).map (resolveHref origin)).dedup)

/-- Base URL of RichtlijnenDatabaseScraper (src/scrapers.py line 96). -/
def RD_ORIGIN : String := "https://richtlijnendatabase.nl"

/-- How the browser collaborator responds on one richtlijnendatabase item page:
whether `page.goto(url, timeout=10000)` succeeds, how many matches the
"Download richtlijn" locator has, whether the popup text and the GENEREER
button become visible within their waits, and whether a download arrives. -/
structure RDPage where
  gotoOk : Bool
  btnCount : Nat
  popupVisible : Bool
  generateVisible : Bool
  downloadOk : Bool

/-- Body of one iteration of the richtlijnendatabase per-item loop
(src/scrapers.py lines 138-192 / src/main.py lines 64-121), parametrized by the
`expect_download` timeout (5*60*1000 ms in scrapers.py line 181; main.py line
109 omits it, leaving the Playwright default of 30000 ms). Returns the item outcome,
the collaborator calls performed, and the updated file set. -/
def processRDItemT (expectMs : Nat) (dir : String) (pg : String → RDPage)
    (fs : List String) (url : String) : ItemResult × List Ev × List String :=
  let save_path := rdTarget dir url
  if fs.contains save_path then
    (ItemResult.skippedExists, [], fs)
  else
    let p := pg url
    if p.gotoOk = false then
      (ItemResult.error ("goto timeout " ++ url), [Ev.nav url], fs)
    else if p.btnCount = 0 then
      (ItemResult.skippedNoButton, [Ev.nav url], fs)
    else if 1 < p.btnCount then
      (ItemResult.error "Unexpected case: Multiple Download richtlijn buttons found.",
        [Ev.nav url], fs)
    else if p.popupVisible = false then
      (ItemResult.error "popup text wait timeout",
        [Ev.nav url, Ev.click "Download richtlijn"], fs)
    else if p.generateVisible = false then
      (ItemResult.error "GENEREER wait timeout",
        [Ev.nav url, Ev.click "Download richtlijn"], fs)
    else if p.downloadOk = false then
      (ItemResult.error "expect_download timeout",
        [Ev.nav url, Ev.click "Download richtlijn", Ev.startDownloadListener expectMs,
          Ev.click "GENEREER"], fs)
    else
      (ItemResult.saved,
        [Ev.nav url, Ev.click "Download richtlijn", Ev.startDownloadListener expectMs,
          Ev.click "GENEREER", Ev.saveFile save_path, Ev.sleep],
        save_path :: fs)

/-- The per-item flow of RichtlijnenDatabaseScraper.scrape, with the
`expect_download(timeout=5*60*1000)` of src/scrapers.py line 181. -/
def processRDItem (dir : String) (pg : String → RDPage) (fs : List String)
    (url : String) : ItemResult × List Ev × List String :=
  processRDItemT (5 * 60 * 1000) dir pg fs url

/-- The per-item flow of the main.py run_richtlijnendatabase, whose
`expect_download()` (line 109) uses the Playwright default 30000 ms timeout. -/
def processRDItemMain (dir : String) (pg : String → RDPage) (fs : List String)
    (url : String) : ItemResult × List Ev × List String :=
  processRDItemT 30000 dir pg fs url

/-- The item loop of RichtlijnenDatabaseScraper.scrape (src/scrapers.py lines
138-192). There is no try/except around the loop body, so the first item that
raises aborts the loop: the result list stops there and the second component
carries the escaping exception. -/
def RDloop (dir : String) (pg : String → RDPage) :
    List String → List String → (List ItemResult × Option String) × List Ev × List String
  | [], fs => (([], none), [], fs)
  | url :: rest, fs =>
    let step := processRDItem dir pg fs url
    match step.1 with
    | ItemResult.error e => (([ItemResult.error e], some e), step.2.1, step.2.2)
    | r =>
      let next := RDloop dir pg rest step.2.2
      ((r :: next.1.1, next.1.2), step.2.1 ++ next.2.1, next.2.2)

/-- The item loop of the main.py run_richtlijnendatabase (lines 64-125): the whole
body sits in `try: ... except Exception as e: print(...); pass`, so an erroring
item is logged with its URL and the loop continues with the next URL. -/
def mainLoop (dir : String) (pg : String → RDPage) :
    List String → List String → List ItemResult × List Ev × List String
  | [], fs => ([], [], fs)
  | url :: rest, fs =>
    let step := processRDItemMain dir pg fs url
    let evs :=
      match step.1 with
      | ItemResult.error _ => step.2.1 ++ [Ev.log ("Failed to process " ++ url)]
      | _ => step.2.1
    let next := mainLoop dir pg rest step.2.2
    (step.1 :: next.1, evs ++ next.2.1, next.2.2)

/-- Collaborator responses for one run of RichtlijnenDatabaseScraper.scrape:
whether the cookie banner is present, whether the networkidle
`wait_for_load_state` with timeout 30000 succeeds, the raw hrefs of the
anchors on the listing page, and
the per-item page behaviors. -/
structure RDSite where
  cookiePresent : Bool
  networkIdle : Bool
  rawHrefs : List String
  pages : String → RDPage

/-- RichtlijnenDatabaseScraper.scrape (src/scrapers.py lines 98-195): dismiss
the cookie banner if present (its absence is swallowed by the try/except),
wait for network idle (a timeout raises out of scrape), discover the links,
then run the unprotected item loop. -/
def RDscrape (dir : String) (site : RDSite) (fs : List String) :
    (List ItemResult × Option String) × List Ev × List String :=
  let cookieEvs := if site.cookiePresent then [Ev.clickCookie] else []
  if site.networkIdle = false then
    (([], some "networkidle timeout"), cookieEvs ++ [Ev.waitNetworkIdle], fs)
  else
    let urls := discoverLinks RD_ORIGIN "/richtlijn/" site.rawHrefs
    let r := RDloop dir site.pages urls fs
    (r.1, cookieEvs ++ [Ev.waitNetworkIdle] ++ r.2.1, r.2.2)

/-- How the browser collaborator responds on one kennisplatform item page:
whether `page.goto(url, timeout=10000)` succeeds, how many matches the
"Naar de richtlijn"/"Naar de handreiking" locator union has, the `href`
attribute of the matched control, and whether a download arrives. -/
structure VVNPage where
  gotoOk : Bool
  btnCount : Nat
  btnHref : Option String
  downloadOk : Bool

/-- Body of one iteration of the KennisinstituutVVNScraper item loop
(src/scrapers.py lines 237-281): skip on a pre-existing file, navigate, check
the button count, read its href, and only when the href ends in ".pdf" arm
`expect_download(timeout=5*60*1000)`, click, and save; otherwise skip. The
politeness sleep runs at the end of both non-raising branches. -/
def processVVNItem (dir : String) (pg : String → VVNPage) (fs : List String)
    (url : String) : ItemResult × List Ev × List String :=
  let save_path := vvnTarget dir url
  if fs.contains save_path then
    (ItemResult.skippedExists, [], fs)
  else
    let p := pg url
    if p.gotoOk = false then
      (ItemResult.error ("goto timeout " ++ url), [Ev.nav url], fs)
    else if p.btnCount = 0 then
      (ItemResult.skippedNoButton, [Ev.nav url], fs)
    else if 1 < p.btnCount then
      (ItemResult.error "Unexpected case: Multiple buttons found.", [Ev.nav url], fs)
    else
      match p.btnHref with
      | some h =>
        if pyEndsWith h ".pdf" then
          if p.downloadOk = false then
            (ItemResult.error "expect_download timeout",
              [Ev.nav url, Ev.startDownloadListener (5 * 60 * 1000),
                Ev.click "Naar de richtlijn"], fs)
          else
            (ItemResult.saved,
              [Ev.nav url, Ev.startDownloadListener (5 * 60 * 1000),
                Ev.click "Naar de richtlijn", Ev.saveFile save_path, Ev.sleep],
              save_path :: fs)
        else (ItemResult.skippedNotPdf, [Ev.nav url, Ev.sleep], fs)
      | none => (ItemResult.skippedNotPdf, [Ev.nav url, Ev.sleep], fs)

/-- The item loop of KennisinstituutVVNScraper.scrape (src/scrapers.py lines
237-281): like RDloop it has no try/except, so the first raising item aborts. -/
def VVNloop (dir : String) (pg : String → VVNPage) :
    List String → List String → (List ItemResult × Option String) × List Ev × List String
  | [], fs => (([], none), [], fs)
  | url :: rest, fs =>
    let step := processVVNItem dir pg fs url
    match step.1 with
    | ItemResult.error e => (([ItemResult.error e], some e), step.2.1, step.2.2)
    | r =>
      let next := VVNloop dir pg rest step.2.2
      ((r :: next.1.1, next.1.2), step.2.1 ++ next.2.1, next.2.2)

/-- The href filter prefix of KennisinstituutVVNScraper (src/scrapers.py line 204). -/
def VVN_LINK_START : String := "https://kennisplatform.venvn.nl/onderwerp/"

/-- Origin of the VVN listing page `base_URL` (src/scrapers.py line 212). -/
def VVN_ORIGIN : String := "https://kennisplatform.venvn.nl"

/-- Collaborator responses for one run of KennisinstituutVVNScraper.scrape:
whether `link_locators.last.wait_for(timeout=10000)` finds the last link in
time, the raw hrefs on the listing page, and the per-item page behaviors. -/
structure VVNSite where
  lastLinkAppears : Bool
  rawHrefs : List String
  pages : String → VVNPage

/-- KennisinstituutVVNScraper.scrape (src/scrapers.py lines 214-284): wait
for the last matching link (a timeout raises out of scrape), discover the
links, then run the unprotected item loop. -/
def VVNscrape (dir : String) (site : VVNSite) (fs : List String) :
    (List ItemResult × Option String) × List Ev × List String :=
  if site.lastLinkAppears = false then
    (([], some "wait_for last link timeout"), [Ev.waitForLastLink], fs)
  else
    let urls := discoverLinks VVN_ORIGIN VVN_LINK_START site.rawHrefs
    let r := VVNloop dir site.pages urls fs
    (r.1, Ev.waitForLastLink :: r.2.1, r.2.2)

/-- BaseScraper.download_dir (src/scrapers.py lines 71-80): the constructor
argument when one was given, else `Path(ROOT_DIR) / "downloads" / self.name`.
ROOT_DIR lives in the definitions module and is passed here as `rootDir`. -/
def download_dir (rootDir nm : String) (override : Option String) : String :=
  match override with
  | none => rootDir ++ "/downloads/" ++ nm
  | some d => d

/-- Effectful calls made by BaseScraper.run, in order. -/
inductive RunEvent where
  | log (msg : String)
  | launch
  | newContext
  | newPage
  | mkdir (path : String)
  | gotoBase (url : String)
  | scrapeCall
  | closeBrowser
deriving DecidableEq

/-- How the collaborators respond to the setup calls of BaseScraper.run:
whether browser launch, context creation, page creation and the initial
navigation raise, and whether the download directory / its parent already
exist on disk (`Path.mkdir(exist_ok=True)` succeeds iff the leaf exists or
its parent does). -/
structure RunEnv where
  launchFails : Bool
  contextFails : Bool
  pageFails : Bool
  dirExists : Bool
  parentExists : Bool
  gotoBaseFails : Bool

/-- Python `self.download_dir.mkdir(exist_ok=True)` (src/scrapers.py line 40) succeeds
iff the leaf directory already exists (exist_ok) or its parent exists (no
`parents=True`, so a missing parent raises FileNotFoundError). -/
def mkdirOk (env : RunEnv) : Bool :=
  env.dirExists || env.parentExists

/-- The try-block of BaseScraper.run (src/scrapers.py lines 32-46): launch,
new_context, new_page, mkdir, goto base_URL, then the delegated scrape, each
stopping at the first raising call. Returns the escaping exception if any,
whether `self.browser` was assigned, and the calls performed. `scrapeExc` is
the exception the delegated scrape routine raises, if any. -/
def tryBody (dir base : String) (env : RunEnv) (scrapeExc : Option String) :
    Option String × Bool × List RunEvent :=
  if env.launchFails then
    (some "launch failed", false, [RunEvent.launch])
  else if env.contextFails then
    (some "new_context failed", true, [RunEvent.launch, RunEvent.newContext])
  else if env.pageFails then
    (some "new_page failed", true,
      [RunEvent.launch, RunEvent.newContext, RunEvent.newPage])
  else if mkdirOk env = false then
    (some "mkdir FileNotFoundError", true,
      [RunEvent.launch, RunEvent.newContext, RunEvent.newPage, RunEvent.mkdir dir])
  else if env.gotoBaseFails then
    (some "goto base_URL failed", true,
      [RunEvent.launch, RunEvent.newContext, RunEvent.newPage, RunEvent.mkdir dir,
        RunEvent.gotoBase base])
  else
    (scrapeExc, true,
      [RunEvent.launch, RunEvent.newContext, RunEvent.newPage, RunEvent.mkdir dir,
        RunEvent.gotoBase base, RunEvent.scrapeCall])

/-- BaseScraper.run (src/scrapers.py lines 27-55): the try-block above, then
`except Exception as e: print(f"Failed to run {self.name}."); raise Exception(e)`
and `finally: if self.browser: self.browser.close(); print(...)`. The except
clause runs before the finally clause, and the exception propagates (as the
returned `Except.error`) only after the finally clause has run. -/
def run (nm base dir : String) (env : RunEnv) (scrapeExc : Option String) :
    Except String Unit × List RunEvent :=
  let body := tryBody dir base env scrapeExc
  let evs := RunEvent.log ("Starting Scraper: " ++ nm) :: body.2.2
  match body.1 with
  | some e =>
    (Except.error e,
      evs ++ [RunEvent.log ("Failed to run " ++ nm ++ ".")]
        ++ (if body.2.1 then [RunEvent.closeBrowser] else [])
        ++ [RunEvent.log ("Finished scraping: " ++ nm)])
  | none =>
    (Except.ok (),
      evs ++ (if body.2.1 then [RunEvent.closeBrowser] else [])
        ++ [RunEvent.log ("Finished scraping: " ++ nm)])

/-- A full RichtlijnenDatabaseScraper invocation: run with the scrape outcome
produced by RDscrape on the resolved download directory. -/
def runRD (nm rootDir : String) (ov : Option String) (env : RunEnv)
    (site : RDSite) (fs : List String) : Except String Unit × List RunEvent :=
  run nm RD_ORIGIN (download_dir rootDir nm ov) env
    (RDscrape (download_dir rootDir nm ov) site fs).1.2

/-- A full KennisinstituutVVNScraper invocation. -/
def runVVN (nm rootDir : String) (ov : Option String) (env : RunEnv)
    (site : VVNSite) (fs : List String) : Except String Unit × List RunEvent :=
  run nm (VVN_ORIGIN ++ "/alle-onderwerpen/") (download_dir rootDir nm ov) env
    (VVNscrape (download_dir rootDir nm ov) site fs).1.2

/-! ### Observation helpers over traces -/

/-- True of an `Except` result that is a normal return. -/
def runOk (r : Except String Unit) : Bool :=
  match r with
  | Except.ok _ => true
  | Except.error _ => false

/-- Number of browser.close calls in a run trace. -/
def closeCount : List RunEvent → Nat
  | [] => 0
  | RunEvent.closeBrowser :: rest => closeCount rest + 1
  | _ :: rest => closeCount rest

/-- Number of initial navigations in a run trace. -/
def gotoBaseCount : List RunEvent → Nat
  | [] => 0
  | RunEvent.gotoBase _ :: rest => gotoBaseCount rest + 1
  | _ :: rest => gotoBaseCount rest

/-- Number of calls into the delegated scrape routine in a run trace. -/
def scrapeCallCount : List RunEvent → Nat
  | [] => 0
  | RunEvent.scrapeCall :: rest => scrapeCallCount rest + 1
  | _ :: rest => scrapeCallCount rest

/-- Number of page navigations in a scrape trace. -/
def navCount : List Ev → Nat
  | [] => 0
  | Ev.nav _ :: rest => navCount rest + 1
  | _ :: rest => navCount rest

/-- Number of networkidle waits in a scrape trace. -/
def idleWaitCount : List Ev → Nat
  | [] => 0
  | Ev.waitNetworkIdle :: rest => idleWaitCount rest + 1
  | _ :: rest => idleWaitCount rest

/-- Number of last-link waits in a scrape trace. -/
def lastWaitCount : List Ev → Nat
  | [] => 0
  | Ev.waitForLastLink :: rest => lastWaitCount rest + 1
  | _ :: rest => lastWaitCount rest

/-- Number of download-listener installations in a scrape trace. -/
def listenerCount : List Ev → Nat
  | [] => 0
  | Ev.startDownloadListener _ :: rest => listenerCount rest + 1
  | _ :: rest => listenerCount rest

/-- True iff every click of `trigger` in the trace happens strictly after some
download listener was started (`armed` says whether one is already active). -/
def clicksAfterListener (trigger : String) (armed : Bool) : List Ev → Bool
  | [] => true
  | Ev.startDownloadListener _ :: rest => clicksAfterListener trigger true rest
  | Ev.click c :: rest =>
    if c = trigger then armed && clicksAfterListener trigger armed rest
    else clicksAfterListener trigger armed rest
  | _ :: rest => clicksAfterListener trigger armed rest

/-- True iff every download listener in the trace is installed with timeout `t`. -/
def listenerTimeoutsAre (t : Nat) : List Ev → Bool
  | [] => true
  | Ev.startDownloadListener s :: rest =>
    if s = t then listenerTimeoutsAre t rest else false
  | _ :: rest => listenerTimeoutsAre t rest

/-! ### The Python string order is a linear order -/

theorem lexLe_total : ∀ a b : List Char, lexLe a b = true ∨ lexLe b a = true
  | [], _ => Or.inl rfl
  | _ :: _, [] => Or.inr rfl
  | a :: as, b :: bs => by
    rcases lt_trichotomy a b with h | h | h
    · exact Or.inl (by simp [lexLe, h])
    · subst h
      rcases lexLe_total as bs with ih | ih
      · exact Or.inl (by simp [lexLe, ih])
      · exact Or.inr (by simp [lexLe, ih])
    · exact Or.inr (by simp [lexLe, h])

theorem lexLe_trans : ∀ a b c : List Char,
    lexLe a b = true → lexLe b c = true → lexLe a c = true
  | [], _, _, _, _ => rfl
  | _ :: _, [], _, h1, _ => by simp [lexLe] at h1
  | _ :: _, _ :: _, [], _, h2 => by simp [lexLe] at h2
  | a :: as, b :: bs, c :: cs, h1, h2 => by
    rcases lt_trichotomy a b with hab | hab | hab
    · rcases lt_trichotomy b c with hbc | hbc | hbc
      · simp [lexLe, lt_trans hab hbc]
      · subst hbc; simp [lexLe, hab]
      · simp [lexLe, lt_asymm hbc, hbc] at h2
    · subst hab
      rcases lt_trichotomy a c with hbc | hbc | hbc
      · simp [lexLe, hbc]
      · subst hbc
        have h1' : lexLe as bs = true := by simpa [lexLe] using h1
        have h2' : lexLe bs cs = true := by simpa [lexLe] using h2
        simp [lexLe, lexLe_trans as bs cs h1' h2']
      · simp [lexLe, lt_asymm hbc, hbc] at h2
    · simp [lexLe, lt_asymm hab, hab] at h1

theorem lexLe_antisymm : ∀ a b : List Char,
    lexLe a b = true → lexLe b a = true → a = b
  | [], [], _, _ => rfl
  | [], _ :: _, _, h2 => by simp [lexLe] at h2
  | _ :: _, [], h1, _ => by simp [lexLe] at h1
  | a :: as, b :: bs, h1, h2 => by
    rcases lt_trichotomy a b with h | h | h
    · simp [lexLe, lt_asymm h, h] at h2
    · subst h
      have h1' : lexLe as bs = true := by simpa [lexLe] using h1
      have h2' : lexLe bs as = true := by simpa [lexLe] using h2
      rw [lexLe_antisymm as bs h1' h2']
    · simp [lexLe, lt_asymm h, h] at h1

instance : IsTotal String (fun a b => pyLe a b = true) :=
  ⟨fun a b => lexLe_total a.data b.data⟩

instance : IsTrans String (fun a b => pyLe a b = true) :=
  ⟨fun a b c => lexLe_trans a.data b.data c.data⟩

instance : IsAntisymm String (fun a b => pyLe a b = true) :=
  ⟨fun a b h1 h2 => by
    have h := lexLe_antisymm a.data b.data h1 h2
    cases a
    cases b
    exact congrArg String.mk h⟩

/-! ### Claims -/

/-- C4: link discovery is a deterministic function of the raw href collection
regarded as an unordered multiset: permuting the raw hrefs does not change the
output, the output has no duplicates and is sorted ascending in the Python
string order; and on the raw hrefs ["/richtlijn/b", "/richtlijn/a",
"/richtlijn/a"] with prefix "/richtlijn/" it yields the two absolute URLs
.../richtlijn/a, .../richtlijn/b in that order. -/
theorem discovery_deterministic (origin pre : String) (l₁ l₂ : List String)
    (h : l₁.Perm l₂) :
    discoverLinks origin pre l₁ = discoverLinks origin pre l₂ ∧
    (discoverLinks origin pre l₁).Nodup ∧
    (discoverLinks origin pre l₁).Sorted (fun a b => pyLe a b = true) ∧
    discoverLinks RD_ORIGIN "/richtlijn/" ["/richtlijn/b", "/richtlijn/a", "/richtlijn/a"] =
      ["https://richtlijnendatabase.nl/richtlijn/a",
        "https://richtlijnendatabase.nl/richtlijn/b"] := by
  have hp : (((l₁.filter (fun s => pyStartsWith s pre)).map (resolveHref origin)).dedup).Perm
      (((l₂.filter (fun s => pyStartsWith s pre)).map (resolveHref origin)).dedup) :=
    ((h.filter _).map _).dedup
  refine ⟨?_, ?_, ?_, by decide⟩
  · exact List.eq_of_perm_of_sorted
      ((List.perm_insertionSort _ _).trans (hp.trans (List.perm_insertionSort _ _).symm))
      (List.sorted_insertionSort _ _) (List.sorted_insertionSort _ _)
  · exact (List.perm_insertionSort _ _).nodup_iff.mpr (List.nodup_dedup _)
  · exact List.sorted_insertionSort _ _

/-- Witness for C4 at a concrete permuted pair of raw href collections. -/
theorem discovery_deterministic_witness :
    discoverLinks RD_ORIGIN "/richtlijn/" ["/richtlijn/b", "/richtlijn/a", "/richtlijn/a"] =
      discoverLinks RD_ORIGIN "/richtlijn/" ["/richtlijn/a", "/richtlijn/a", "/richtlijn/b"] :=
  (discovery_deterministic RD_ORIGIN "/richtlijn/"
    ["/richtlijn/b", "/richtlijn/a", "/richtlijn/a"]
    ["/richtlijn/a", "/richtlijn/a", "/richtlijn/b"] (by decide)).1

/-- C2: for every execution of run() whose browser launch succeeded, every
exit path — normal return or an exception from context creation, page
creation, download-directory creation, the initial navigation or the
delegated scrape routine — closes the browser exactly once; the run returns
normally iff no step raised (so every error is re-raised to the caller); and
on every error path the failure is logged with the scraper name. -/
theorem run_always_closes_browser (nm base dir : String) (env : RunEnv)
    (scrapeExc : Option String) (h : env.launchFails = false) :
    closeCount (run nm base dir env scrapeExc).2 = 1 ∧
    (runOk (run nm base dir env scrapeExc).1 = true ↔
      (env.contextFails = false ∧ env.pageFails = false ∧ mkdirOk env = true ∧
        env.gotoBaseFails = false ∧ scrapeExc = none)) ∧
    (runOk (run nm base dir env scrapeExc).1 = false →
      RunEvent.log ("Failed to run " ++ nm ++ ".") ∈ (run nm base dir env scrapeExc).2) := by
  cases hc : env.contextFails <;> cases hp : env.pageFails <;>
    cases hd : env.dirExists <;> cases hpe : env.parentExists <;>
      cases hg : env.gotoBaseFails <;> cases scrapeExc <;>
        simp [run, tryBody, mkdirOk, closeCount, runOk, h, hc, hp, hd, hpe, hg]

/-- Witness for C2: a run whose context creation throws still closes the
browser exactly once. -/
theorem run_always_closes_browser_witness :
    closeCount (run "rdb" "b" "d" ⟨false, true, false, true, true, false⟩ none).2 = 1 :=
  (run_always_closes_browser "rdb" "b" "d" ⟨false, true, false, true, true, false⟩ none rfl).1

/-- C5: when the download target derived from a URL already exists on disk,
the per-item flow of either scraper performs no collaborator call at all (no
navigation, no network activity), leaves the file set unchanged, reports the
item skipped, and the batch loop continues with the remaining URLs. -/
theorem existing_target_skipped (dir url vurl : String) (pg : String → RDPage)
    (vpg : String → VVNPage) (fs rest : List String)
    (h : fs.contains (rdTarget dir url) = true)
    (hv : fs.contains (vvnTarget dir vurl) = true) :
    processRDItem dir pg fs url = (ItemResult.skippedExists, [], fs) ∧
    processVVNItem dir vpg fs vurl = (ItemResult.skippedExists, [], fs) ∧
    RDloop dir pg (url :: rest) fs =
      ((ItemResult.skippedExists :: (RDloop dir pg rest fs).1.1, (RDloop dir pg rest fs).1.2),
        (RDloop dir pg rest fs).2.1, (RDloop dir pg rest fs).2.2) := by
  have h' : rdTarget dir url ∈ fs := by simpa using h
  have hv' : vvnTarget dir vurl ∈ fs := by simpa using hv
  have hrd : processRDItem dir pg fs url = (ItemResult.skippedExists, [], fs) := by
    simp [processRDItem, processRDItemT, h']
  refine ⟨hrd, ?_, ?_⟩
  · simp [processVVNItem, hv']
  · simp [RDloop, hrd]

/-- Witness for C5 at a concrete file set containing both targets. -/
theorem existing_target_skipped_witness :
    processRDItem "d" (fun _ => ⟨true, 1, true, true, true⟩) ["d/u.pdf", "d/v.pdf"] "a/u" =
      (ItemResult.skippedExists, [], ["d/u.pdf", "d/v.pdf"]) :=
  (existing_target_skipped "d" "a/u" "a/v/x" (fun _ => ⟨true, 1, true, true, true⟩)
    (fun _ => ⟨true, 1, some "p.pdf", true⟩) ["d/u.pdf", "d/v.pdf"] []
    (by decide) (by decide)).1

/-- C6: when the primary-action-control locator matches zero elements (after a
successful navigation to an item that is not yet downloaded), the per-item
flow of either scraper skips the item as normal flow: no exception, no click,
no download attempt, file set unchanged — the trace is just the navigation. -/
theorem zero_match_skipped (dir url vurl : String) (pg : String → RDPage)
    (vpg : String → VVNPage) (fs : List String)
    (h : fs.contains (rdTarget dir url) = false)
    (hg : (pg url).gotoOk = true) (hc : (pg url).btnCount = 0)
    (hv : fs.contains (vvnTarget dir vurl) = false)
    (hvg : (vpg vurl).gotoOk = true) (hvc : (vpg vurl).btnCount = 0) :
    processRDItem dir pg fs url = (ItemResult.skippedNoButton, [Ev.nav url], fs) ∧
    processVVNItem dir vpg fs vurl = (ItemResult.skippedNoButton, [Ev.nav vurl], fs) := by
  have h' : rdTarget dir url ∉ fs := by simpa using h
  have hv' : vvnTarget dir vurl ∉ fs := by simpa using hv
  constructor <;>
    simp [processRDItem, processRDItemT, processVVNItem, h', hg, hc, hv', hvg, hvc]

/-- Witness for C6 at concrete pages with zero matches. -/
theorem zero_match_skipped_witness :
    processRDItem "d" (fun _ => ⟨true, 0, true, true, true⟩) [] "a/u" =
      (ItemResult.skippedNoButton, [Ev.nav "a/u"], []) :=
  (zero_match_skipped "d" "a/u" "a/v/x" (fun _ => ⟨true, 0, true, true, true⟩)
    (fun _ => ⟨true, 0, some "p.pdf", true⟩) []
    (by decide) rfl rfl (by decide) rfl rfl).1

/-- C9: a scraper constructed without a download_dir override resolves its
download directory to rootDir/downloads/name; one constructed with an override
resolves to exactly the override; and the run setup creates exactly that
resolved directory. ROOT_DIR (imported from the definitions module) is the
abstract rootDir parameter. -/
theorem download_dir_resolution (rootDir nm base ov : String) :
    download_dir rootDir nm none = rootDir ++ "/downloads/" ++ nm ∧
    download_dir rootDir nm (some ov) = ov ∧
    (∀ env : RunEnv, ∀ scrapeExc : Option String,
      env.launchFails = false → env.contextFails = false → env.pageFails = false →
        mkdirOk env = true →
        RunEvent.mkdir (rootDir ++ "/downloads/" ++ nm) ∈
          (run nm base (download_dir rootDir nm none) env scrapeExc).2) := by
  refine ⟨rfl, rfl, ?_⟩
  intro env scrapeExc h1 h2 h3 h4
  cases hg : env.gotoBaseFails <;> cases scrapeExc <;>
    simp [run, tryBody, download_dir, h1, h2, h3, h4, hg]

/-- Witness for C9 at a concrete root, name and environment. -/
theorem download_dir_resolution_witness :
    download_dir "root" "rdb" none = "root/downloads/rdb" :=
  (download_dir_resolution "root" "rdb" "b" "o").1

/-- C10: run() creates the download directory with mkdir(exist_ok=True) and no
parents=True, so it is created non-recursively: if neither the leaf nor its
parent exists, run() raises during setup, before the initial navigation and
before the scrape routine is ever called; while a pre-existing leaf directory
is accepted and the run proceeds normally. -/
theorem run_mkdir_leaf_only (nm base rootDir : String) (ov : Option String)
    (env : RunEnv) (scrapeExc : Option String)
    (h1 : env.launchFails = false) (h2 : env.contextFails = false)
    (h3 : env.pageFails = false) :
    (env.dirExists = false → env.parentExists = false →
      runOk (run nm base (download_dir rootDir nm ov) env scrapeExc).1 = false ∧
      gotoBaseCount (run nm base (download_dir rootDir nm ov) env scrapeExc).2 = 0 ∧
      scrapeCallCount (run nm base (download_dir rootDir nm ov) env scrapeExc).2 = 0) ∧
    (env.dirExists = true → env.gotoBaseFails = false → scrapeExc = none →
      (run nm base (download_dir rootDir nm ov) env scrapeExc).1 = Except.ok ()) := by
  constructor
  · intro hd hp
    simp [run, tryBody, mkdirOk, runOk, gotoBaseCount, scrapeCallCount, h1, h2, h3, hd, hp]
  · intro hd hg hs
    subst hs
    simp [run, tryBody, mkdirOk, runOk, h1, h2, h3, hd, hg]

/-- Witness for C10 at a concrete environment with a missing parent directory. -/
theorem run_mkdir_leaf_only_witness :
    runOk (run "rdb" "b" (download_dir "root" "rdb" none)
      ⟨false, false, false, false, false, false⟩ none).1 = false :=
  ((run_mkdir_leaf_only "rdb" "b" "root" none
    ⟨false, false, false, false, false, false⟩ none rfl rfl rfl).1 rfl rfl).1

/-- C7: if the page-readiness wait of link discovery times out — the
networkidle wait of RichtlijnenDatabaseScraper, or the last-link wait of
KennisinstituutVVNScraper — the scrape routine raises immediately: no item is
attempted, no navigation happens, the wait is performed exactly once (no
retry), and the whole run for that scraper fails with that timeout error. -/
theorem readiness_timeout_fails_whole_run (nm rootDir dir : String) (ov : Option String)
    (env : RunEnv) (site : RDSite) (vsite : VVNSite) (fs : List String)
    (hsite : site.networkIdle = false) (hvsite : vsite.lastLinkAppears = false)
    (h1 : env.launchFails = false) (h2 : env.contextFails = false)
    (h3 : env.pageFails = false) (h4 : mkdirOk env = true)
    (h5 : env.gotoBaseFails = false) :
    (RDscrape dir site fs).1.2 = some "networkidle timeout" ∧
    (RDscrape dir site fs).1.1 = [] ∧
    navCount (RDscrape dir site fs).2.1 = 0 ∧
    idleWaitCount (RDscrape dir site fs).2.1 = 1 ∧
    (runRD nm rootDir ov env site fs).1 = Except.error "networkidle timeout" ∧
    (VVNscrape dir vsite fs).1.2 = some "wait_for last link timeout" ∧
    (VVNscrape dir vsite fs).1.1 = [] ∧
    navCount (VVNscrape dir vsite fs).2.1 = 0 ∧
    lastWaitCount (VVNscrape dir vsite fs).2.1 = 1 ∧
    (runVVN nm rootDir ov env vsite fs).1 = Except.error "wait_for last link timeout" := by
  cases hcp : site.cookiePresent <;>
    simp [RDscrape, VVNscrape, runRD, runVVN, run, tryBody, navCount, idleWaitCount,
      lastWaitCount, hsite, hvsite, h1, h2, h3, h4, h5, hcp]

/-- Witness for C7 at a concrete site whose readiness wait times out. -/
theorem readiness_timeout_fails_whole_run_witness :
    (RDscrape "d" ⟨false, false, [], fun _ => ⟨true, 1, true, true, true⟩⟩ []).1.2 =
      some "networkidle timeout" :=
  (readiness_timeout_fails_whole_run "rdb" "root" "d" none
    ⟨false, false, false, true, true, false⟩
    ⟨false, false, [], fun _ => ⟨true, 1, true, true, true⟩⟩
    ⟨false, [], fun _ => ⟨true, 1, some "p.pdf", true⟩⟩ []
    rfl rfl rfl rfl rfl rfl rfl).1

/-- C8: in every per-item flow of either scraper, every click of the control
that triggers the file transfer (the GENEREER popup button for
richtlijnendatabase, the primary link for kennisplatform) happens strictly
after the download listener was installed, every installed listener uses the
5*60*1000 ms timeout, and the path that saves a file installed exactly one
listener. -/
theorem listener_armed_before_trigger_click (dir url vurl : String)
    (pg : String → RDPage) (vpg : String → VVNPage) (fs : List String) :
    clicksAfterListener "GENEREER" false (processRDItem dir pg fs url).2.1 = true ∧
    listenerTimeoutsAre (5 * 60 * 1000) (processRDItem dir pg fs url).2.1 = true ∧
    ((processRDItem dir pg fs url).1 = ItemResult.saved →
      listenerCount (processRDItem dir pg fs url).2.1 = 1) ∧
    clicksAfterListener "Naar de richtlijn" false (processVVNItem dir vpg fs vurl).2.1 = true ∧
    listenerTimeoutsAre (5 * 60 * 1000) (processVVNItem dir vpg fs vurl).2.1 = true ∧
    ((processVVNItem dir vpg fs vurl).1 = ItemResult.saved →
      listenerCount (processVVNItem dir vpg fs vurl).2.1 = 1) := by
  refine ⟨?_, ?_, ?_, ?_, ?_, ?_⟩
  · simp only [processRDItem, processRDItemT]
    split_ifs <;> simp [clicksAfterListener]
  · simp only [processRDItem, processRDItemT]
    split_ifs <;> simp [listenerTimeoutsAre]
  · simp only [processRDItem, processRDItemT]
    split_ifs <;> simp [listenerCount]
  · simp only [processVVNItem]
    rcases hh : (vpg vurl).btnHref with _ | b <;> simp only [hh] <;>
      split_ifs <;> simp [clicksAfterListener]
  · simp only [processVVNItem]
    rcases hh : (vpg vurl).btnHref with _ | b <;> simp only [hh] <;>
      split_ifs <;> simp [listenerTimeoutsAre]
  · simp only [processVVNItem]
    rcases hh : (vpg vurl).btnHref with _ | b <;> simp only [hh] <;>
      split_ifs <;> simp [listenerCount]

/-- Witness for C8: a successful save installs exactly one listener. -/
theorem listener_armed_before_trigger_click_witness :
    listenerCount (processRDItem "d" (fun _ => ⟨true, 1, true, true, true⟩) [] "a/u").2.1 = 1 :=
  (listener_armed_before_trigger_click "d" "a/u" "a/v/x"
    (fun _ => ⟨true, 1, true, true, true⟩) (fun _ => ⟨true, 1, some "p.pdf", true⟩) []).2.2.1
    (by decide)

/-- Failing input for C1: a listing with two discovered item URLs where
navigation to the first (u1) times out and the second (u2) is healthy. -/
def c1Pages : String → RDPage := fun u =>
  if u = "https://richtlijnendatabase.nl/richtlijn/u1" then ⟨false, 1, true, true, true⟩
  else ⟨true, 1, true, true, true⟩

/-- The C1 failing site: two raw hrefs, network idle, no cookie banner. -/
def c1Site : RDSite := ⟨false, true, ["/richtlijn/u1", "/richtlijn/u2"], c1Pages⟩

/-- C1 (code bug): the per-item loop of RichtlijnenDatabaseScraper.scrape has
no try/except, so on a discovery of two URLs where the first raises on
navigation the batch aborts — the escaping exception is the goto timeout, only
1 of 2 items is attempted, and the single navigation performed shows u2 was
never visited. The legacy flow run_richtlijnendatabase (main.py), whose loop
body is wrapped in try/except, attempts both items on the same input, logs the
failing URL, and navigates to u2. -/
theorem perItem_error_aborts_scrapers_batch :
    (RDscrape "d" c1Site []).1.2 =
      some "goto timeout https://richtlijnendatabase.nl/richtlijn/u1" ∧
    (RDscrape "d" c1Site []).1.1.length = 1 ∧
    navCount (RDscrape "d" c1Site []).2.1 = 1 ∧
    (mainLoop "d" c1Pages (discoverLinks RD_ORIGIN "/richtlijn/" c1Site.rawHrefs) []).1.length = 2 ∧
    Ev.nav "https://richtlijnendatabase.nl/richtlijn/u2" ∈
      (mainLoop "d" c1Pages (discoverLinks RD_ORIGIN "/richtlijn/" c1Site.rawHrefs) []).2.1 ∧
    Ev.log "Failed to process https://richtlijnendatabase.nl/richtlijn/u1" ∈
      (mainLoop "d" c1Pages (discoverLinks RD_ORIGIN "/richtlijn/" c1Site.rawHrefs) []).2.1 := by
  decide

/-- Failing input for C3: two discovered item URLs where the first (v1) has
two matches for the "Download richtlijn" locator and the second is healthy. -/
def c3Pages : String → RDPage := fun u =>
  if u = "https://richtlijnendatabase.nl/richtlijn/v1" then ⟨true, 2, true, true, true⟩
  else ⟨true, 1, true, true, true⟩

/-- The C3 failing site: two raw hrefs, network idle, no cookie banner. -/
def c3Site : RDSite := ⟨false, true, ["/richtlijn/v1", "/richtlijn/v2"], c3Pages⟩

/-- C3 (code bug): with 2 locator matches the per-item flow does raise without
clicking (first two conjuncts, as the claim states), but in
RichtlijnenDatabaseScraper.scrape that exception escapes the batch: the scrape
aborts with it, only 1 of 2 items is attempted and v2 is never navigated. In
the legacy main.py loop the same input yields a caught failure for v1 followed
by a successful save of v2. -/
theorem multi_match_raises_out_of_batch :
    (processRDItem "d" c3Pages [] "https://richtlijnendatabase.nl/richtlijn/v1").1 =
      ItemResult.error "Unexpected case: Multiple Download richtlijn buttons found." ∧
    (processRDItem "d" c3Pages [] "https://richtlijnendatabase.nl/richtlijn/v1").2.1 =
      [Ev.nav "https://richtlijnendatabase.nl/richtlijn/v1"] ∧
    (RDscrape "d" c3Site []).1.2 =
      some "Unexpected case: Multiple Download richtlijn buttons found." ∧
    (RDscrape "d" c3Site []).1.1.length = 1 ∧
    navCount (RDscrape "d" c3Site []).2.1 = 1 ∧
    (mainLoop "d" c3Pages (discoverLinks RD_ORIGIN "/richtlijn/" c3Site.rawHrefs) []).1 =
      [ItemResult.error "Unexpected case: Multiple Download richtlijn buttons found.",
        ItemResult.saved] ∧
    Ev.nav "https://richtlijnendatabase.nl/richtlijn/v2" ∈
      (mainLoop "d" c3Pages (discoverLinks RD_ORIGIN "/richtlijn/" c3Site.rawHrefs) []).2.1 := by
  decide

end GuidelineScraper
